import Mathlib

/-!
Verification of the rx-player stream core against its specification.

The definitions below are shallow embeddings of the TypeScript sources:
  - `src/core/stream/index.ts` (Stream orchestrator: retry options,
    end-of-play filter, per-period buffer switching),
  - `src/core/eme/index.ts` (EME / content-protection driver),
  - `src/core/source_buffers/overlay/index.ts` (overlay/text sink and the
    media-source attach/reset logic),
  - the meta-DASH overlay parser.

Machine numbers (times, durations) are modelled as rationals; JavaScript
truthiness checks are written out explicitly where the source relies on
them.  Observable streams are modelled as finite event lists in emission
order; throwing inside a stream callback is modelled with `Except` or an
explicit terminal outcome.
-/

namespace RxPlayer

/-! ## Media-source duration (`setDurationToMediaSource`, media_source.ts) -/

/-- A JavaScript number that may be `Infinity` (finite values as rationals). -/
inductive JSNum
  | fin (q : ℚ)
  | inf
deriving DecidableEq

/-- `Number.MAX_VALUE`, the platform maximum finite double. -/
def maxValue : ℚ := (2 ^ 53 - 1) * 2 ^ 971

/-- The observable state of a `MediaSource` object for the duration setter:
its `duration` attribute plus a counter of assignments to it, so that "left
unchanged" is an observable fact. -/
structure MediaSrc where
  duration : JSNum
  setCount : Nat
deriving DecidableEq

/-- Embeds `setDurationToMediaSource` (media_source.ts): `Infinity` is
replaced by `Number.MAX_VALUE`, and the `duration` attribute is assigned
only when it differs from the new value. -/
def setDurationToMediaSource (ms : MediaSrc) (duration : JSNum) : MediaSrc :=
  let newDuration := if duration = JSNum.inf then JSNum.fin maxValue else duration
  if ms.duration ≠ newDuration then
    { duration := newDuration, setCount := ms.setCount + 1 }
  else
    ms

/-! ## End of play (`endOfPlay` / `takeUntil`, stream/index.ts) -/

/-- A timing tick as consumed by the end-of-play filter. -/
structure Tick where
  currentTime : ℚ
  duration : ℚ
deriving DecidableEq

/-- Embeds the predicate of the `endOfPlay` filter in `Stream`:
`duration > 0 && duration - currentTime < END_OF_PLAY`. -/
def endOfPlayPred (endOfPlayCfg : ℚ) (t : Tick) : Bool :=
  decide (0 < t.duration) && decide (t.duration - t.currentTime < endOfPlayCfg)

/-- Embeds `.takeUntil(endOfPlay)` on the orchestrator output: the merged
timeline interleaves timing ticks (`Sum.inl`) with output events
(`Sum.inr`); the output is every event emitted strictly before the first
tick passing the end-of-play filter. -/
def streamOutput (endOfPlayCfg : ℚ) : List (Sum Tick α) → List α
  | [] => []
  | Sum.inl t :: rest =>
    if endOfPlayPred endOfPlayCfg t then [] else streamOutput endOfPlayCfg rest
  | Sum.inr e :: rest => e :: streamOutput endOfPlayCfg rest

/-- Claim C2 counterexample: a tick with `duration = 0, currentTime = 0`
satisfies the claim predicate `duration - currentTime < END_OF_PLAY`
(with the default `END_OF_PLAY = 0.5`), yet the orchestrator stream does
not complete there: a further event (42) is still emitted. -/
theorem endOfPlay_requires_positive_duration_cex :
    ((0 : ℚ) - 0 < 1 / 2) ∧
    streamOutput (1 / 2) [Sum.inl ⟨0, 0⟩, Sum.inr (42 : ℕ)] = [42] := by
  refine ⟨by norm_num, ?_⟩
  rfl

/-- Claim C2 (amended): the orchestrator output completes as soon as a timing
tick satisfies `duration > 0` and `duration - currentTime < END_OF_PLAY`:
no event placed after such a tick is ever emitted. -/
theorem streamOutput_end_of_play_spec (endOfPlayCfg : ℚ) (pre : List (Sum Tick ℕ))
    (t : Tick) (post : List (Sum Tick ℕ))
    (h1 : 0 < t.duration) (h2 : t.duration - t.currentTime < endOfPlayCfg) :
    streamOutput endOfPlayCfg (pre ++ Sum.inl t :: post) =
      streamOutput endOfPlayCfg (pre ++ [Sum.inl t]) := by
  have hpred : endOfPlayPred endOfPlayCfg t = true := by
    simp [endOfPlayPred, h1, h2]
  induction pre with
  | nil => simp [streamOutput, hpred]
  | cons a pre ih =>
    cases a with
    | inl t2 =>
      by_cases h : endOfPlayPred endOfPlayCfg t2 = true <;>
        simp [streamOutput, h, ih]
    | inr e => simp [streamOutput, ih]

/-- Claim C2 witness: concrete run in which the passing tick cuts the stream. -/
theorem streamOutput_end_of_play_spec_witness :
    streamOutput (1 / 2) [Sum.inr 7, Sum.inl ⟨(29 : ℚ) + 6 / 10, 30⟩, Sum.inr 8] =
      streamOutput (1 / 2) [Sum.inr 7, Sum.inl ⟨(29 : ℚ) + 6 / 10, 30⟩] :=
  streamOutput_end_of_play_spec (1 / 2) [Sum.inr 7] ⟨(29 : ℚ) + 6 / 10, 30⟩
    [Sum.inr 8] (by norm_num) (by norm_num)

/-- Claim C8: setting the duration from a manifest whose duration is `Infinity`
stores `Number.MAX_VALUE`, and setting a duration equal to the (finite)
one already stored leaves the media source unchanged. -/
theorem setDurationToMediaSource_spec (ms : MediaSrc) :
    ((setDurationToMediaSource ms JSNum.inf).duration = JSNum.fin maxValue) ∧
    (∀ q : ℚ, ms.duration = JSNum.fin q →
      setDurationToMediaSource ms (JSNum.fin q) = ms) := by
  constructor
  · by_cases h : ms.duration = JSNum.fin maxValue <;>
      simp [setDurationToMediaSource, h]
  · intro q hq
    simp [setDurationToMediaSource, hq]

/-- Claim C8 witness: concrete evaluations of both conjuncts. -/
theorem setDurationToMediaSource_spec_witness :
    (setDurationToMediaSource ⟨JSNum.fin 5, 0⟩ JSNum.inf).duration
        = JSNum.fin maxValue ∧
    setDurationToMediaSource ⟨JSNum.fin 5, 0⟩ (JSNum.fin 5) = ⟨JSNum.fin 5, 0⟩ :=
  ⟨(setDurationToMediaSource_spec ⟨JSNum.fin 5, 0⟩).1,
   (setDurationToMediaSource_spec ⟨JSNum.fin 5, 0⟩).2 5 rfl⟩

/-! ## Retry policy (`retryOptions` / `startStream`, stream/index.ts) -/

/-- An error flowing through the stream startup.  `known` covers the
player's `CustomError` hierarchy (`isKnownError` true) with its class
name, code and `fatal` flag; `unknown` covers any other thrown value. -/
inductive StreamError
  | known (name : String) (code : String) (fatal : Bool)
  | unknown
deriving DecidableEq

/-- Embeds `isKnownError` as used by the retry options. -/
def isKnownError : StreamError → Bool
  | StreamError.known _ _ _ => true
  | StreamError.unknown => false

/-- The retry configuration shape consumed by `retryableFuncWithBackoff`
(the `onRetry` logging callback is side-effect only and omitted). -/
structure RetryOptions where
  totalRetry : Nat
  retryDelay : ℚ
  resetDelay : ℚ
  shouldRetry : StreamError → Bool
  errorSelector : StreamError → StreamError

/-- Embeds the `retryOptions` literal of `Stream` (stream/index.ts):
`totalRetry = 3`, `retryDelay = 250` ms, `resetDelay = 60 * 1000` ms;
`shouldRetry` refuses only known fatal errors; `errorSelector` wraps
unknown errors as `new OtherError("NONE", error, true)` and otherwise
sets the error's `fatal` flag to `true`. -/
def retryOptions : RetryOptions where
  totalRetry := 3
  retryDelay := 250
  resetDelay := 60 * 1000
  shouldRetry := fun error =>
    if isKnownError error then
      match error with
      | StreamError.known _ _ fatal => !fatal
      | StreamError.unknown => true
    else true
  errorSelector := fun error =>
    if !isKnownError error then
      StreamError.known "OtherError" "NONE" true
    else
      match error with
      | StreamError.known name code _ => StreamError.known name code true
      | StreamError.unknown => StreamError.unknown

/-- Modelled from the spec: the Retry Harness runner (C9, §4.8;
`utils/retry` is not part of the provided sources).  `attempts` lists the
outcome of each successive invocation of the wrapped function; `n` is the
current retry counter.  A failure is retried while `shouldRetry` accepts
it and the retry budget `totalRetry` is not exhausted; otherwise the
error is surfaced through `errorSelector`.  `none` means the run is
still pending (no listed attempt settled it). -/
def runRetry (opts : RetryOptions) :
    Nat → List (Except StreamError Unit) → Option (Except StreamError Unit)
  | _, [] => none
  | _, Except.ok a :: _ => some (Except.ok a)
  | n, Except.error e :: rest =>
    if opts.shouldRetry e && decide (n < opts.totalRetry) then
      runRetry opts (n + 1) rest
    else
      some (Except.error (opts.errorSelector e))

/-- Claim C3: the startup retry policy uses `totalRetry = 3`,
`retryDelay = 250` ms, `resetDelay = 60` s; a known fatal error is never
retried (it is surfaced immediately, unchanged); any other known error
and any unknown error are retried while budget remains; a surfaced
unknown error is wrapped as `OtherError("NONE")` with `fatal = true`;
a known error surfaced after the budget is exhausted has `fatal = true`. -/
theorem retryOptions_policy_spec :
    retryOptions.totalRetry = 3 ∧
    retryOptions.retryDelay = 250 ∧
    retryOptions.resetDelay = 60 * 1000 ∧
    (∀ name code, retryOptions.shouldRetry (StreamError.known name code true) = false) ∧
    (∀ name code, retryOptions.shouldRetry (StreamError.known name code false) = true) ∧
    (retryOptions.shouldRetry StreamError.unknown = true) ∧
    (retryOptions.errorSelector StreamError.unknown
       = StreamError.known "OtherError" "NONE" true) ∧
    (∀ name code, retryOptions.errorSelector (StreamError.known name code false)
       = StreamError.known name code true) ∧
    (∀ name code n rest,
      runRetry retryOptions n (Except.error (StreamError.known name code true) :: rest)
        = some (Except.error (StreamError.known name code true))) ∧
    (∀ name code n rest, n < retryOptions.totalRetry →
      runRetry retryOptions n (Except.error (StreamError.known name code false) :: rest)
        = runRetry retryOptions (n + 1) rest) ∧
    (∀ n rest, n < retryOptions.totalRetry →
      runRetry retryOptions n (Except.error StreamError.unknown :: rest)
        = runRetry retryOptions (n + 1) rest) ∧
    (∀ e rest,
      runRetry retryOptions retryOptions.totalRetry (Except.error e :: rest)
        = some (Except.error (retryOptions.errorSelector e))) := by
  refine ⟨rfl, rfl, rfl, fun name code => rfl, fun name code => rfl, rfl, rfl,
    fun name code => rfl, fun name code n rest => ?_,
    fun name code n rest h => ?_, fun n rest h => ?_, fun e rest => ?_⟩
  · simp [runRetry, retryOptions, isKnownError]
  · have h3 : ¬ (3 ≤ n) := Nat.not_le.mpr h
    simp [runRetry, retryOptions, isKnownError, h3]
  · have h3 : ¬ (3 ≤ n) := Nat.not_le.mpr h
    simp [runRetry, retryOptions, isKnownError, h3]
  · simp [runRetry]

/-- Claim C3 witness: a non-fatal known error is retried at count 0, and at the
exhausted budget a known error surfaces with `fatal = true`. -/
theorem retryOptions_policy_spec_witness :
    runRetry retryOptions 0
        [Except.error (StreamError.known "NetworkError" "TIMEOUT" false)]
      = runRetry retryOptions 1 [] ∧
    runRetry retryOptions retryOptions.totalRetry
        [Except.error (StreamError.known "NetworkError" "TIMEOUT" false)]
      = some (Except.error (StreamError.known "NetworkError" "TIMEOUT" true)) :=
  ⟨retryOptions_policy_spec.2.2.2.2.2.2.2.2.2.1 "NetworkError" "TIMEOUT" 0 []
      (by decide),
   retryOptions_policy_spec.2.2.2.2.2.2.2.2.2.2.2
      (StreamError.known "NetworkError" "TIMEOUT" false) []⟩

/-! ## Content protection (eme/index.ts) -/

/-- An `EncryptedMediaError` as thrown by the EME module: its code string
and `fatal` flag (the wrapped `cause` message carries no behaviour). -/
structure EmeError where
  code : String
  fatal : Bool
deriving DecidableEq

/-- A user-supplied key-system option, restricted to the fields the
embedded functions read: `persistentLicense` and the presence of a
`licenseStorage` pair. -/
structure KeySystemOption where
  persistentLicense : Bool
  licenseStorage : Option Unit
deriving DecidableEq

/-- The `{ keySystem, keySystemAccess }` package: the user option plus the
`MediaKeySystemConfiguration` returned by
`keySystemAccess.getConfiguration()`, modelled as an abstract token. -/
structure KeySystemPackage where
  keySystem : KeySystemOption
  configuration : Nat
deriving DecidableEq

/-- An observable effect of successful session handling. -/
inductive SessionEvt
  | created (initData : List Nat)
deriving DecidableEq

/-- Embeds `handleSessionStorage` (eme/index.ts): with
`persistentLicense` set, a missing `licenseStorage` throws
`EncryptedMediaError("INVALID_KEY_SYSTEM", _, true)`; otherwise the
storage is installed (a side effect without further observable state
here). -/
def handleSessionStorage (keySystem : KeySystemOption) : Except EmeError Unit :=
  if keySystem.persistentLicense then
    match keySystem.licenseStorage with
    | some _ => Except.ok ()
    | none => Except.error ⟨"INVALID_KEY_SYSTEM", true⟩
  else
    Except.ok ()

/-- Embeds `handleInitEncryptedEvent` (eme/index.ts): a missing
`initData` throws `INVALID_ENCRYPTED_EVENT`; then `handleSessionStorage`
runs; only afterwards are media keys created and the session opened
(success summarised as the created-session event). -/
def handleInitEncryptedEvent (initData : Option (List Nat))
    (keySystemInfo : KeySystemPackage) : Except EmeError (List SessionEvt) :=
  match initData with
  | none => Except.error ⟨"INVALID_ENCRYPTED_EVENT", true⟩
  | some d =>
    (handleSessionStorage keySystemInfo.keySystem).bind fun _ =>
      Except.ok [SessionEvt.created d]

/-- Embeds the per-event body of `handleOngoingPlaybackEncryptedEvents`
(eme/index.ts) for one subsequent `encrypted` event: missing attached
`mediaKeys` or missing `initData` throw `INVALID_ENCRYPTED_EVENT`;
`handleSessionStorage` runs; then the configuration of this event is
compared (via `compareMksConfigurations`, passed here as `cmp`) with the
established `instanceInfos.$mediaKeySystemConfiguration`, and a mismatch
throws `EncryptedMediaError("INVALID_ENCRYPTED_EVENT", _, true)`;
otherwise the session is created on the existing media keys. -/
def handleOngoingPlaybackEncryptedEvents (cmp : Nat → Nat → Bool)
    (videoMediaKeys : Option Unit) (establishedConfiguration : Nat)
    (initData : Option (List Nat)) (keySystemInfo : KeySystemPackage) :
    Except EmeError (List SessionEvt) :=
  match videoMediaKeys with
  | none => Except.error ⟨"INVALID_ENCRYPTED_EVENT", true⟩
  | some _ =>
    match initData with
    | none => Except.error ⟨"INVALID_ENCRYPTED_EVENT", true⟩
    | some d =>
      (handleSessionStorage keySystemInfo.keySystem).bind fun _ =>
        if !(cmp keySystemInfo.configuration establishedConfiguration) then
          Except.error ⟨"INVALID_ENCRYPTED_EVENT", true⟩
        else
          Except.ok [SessionEvt.created d]

/-- Claim C5: a key-system option with `persistentLicense` but no
`licenseStorage` makes the handling of any encrypted event carrying init
data fail with `EncryptedMediaError("INVALID_KEY_SYSTEM", fatal = true)`
— on the first-event path and on the ongoing-playback path alike — and
no session is ever created. -/
theorem handleSessionStorage_persistent_requires_storage
    (ks : KeySystemOption) (cfg : Nat) (d : List Nat)
    (hp : ks.persistentLicense = true) (hs : ks.licenseStorage = none) :
    handleInitEncryptedEvent (some d) ⟨ks, cfg⟩
        = Except.error ⟨"INVALID_KEY_SYSTEM", true⟩ ∧
    (∀ sessions, handleInitEncryptedEvent (some d) ⟨ks, cfg⟩ ≠ Except.ok sessions) ∧
    (∀ cmp establishedConfiguration,
      handleOngoingPlaybackEncryptedEvents cmp (some ()) establishedConfiguration
          (some d) ⟨ks, cfg⟩
        = Except.error ⟨"INVALID_KEY_SYSTEM", true⟩) := by
  have hstore : handleSessionStorage ks = Except.error ⟨"INVALID_KEY_SYSTEM", true⟩ := by
    simp [handleSessionStorage, hp, hs]
  refine ⟨?_, ?_, ?_⟩
  · simp [handleInitEncryptedEvent, hstore, Except.bind]
  · intro sessions
    simp [handleInitEncryptedEvent, hstore, Except.bind]
  · intro cmp establishedConfiguration
    simp [handleOngoingPlaybackEncryptedEvents, hstore, Except.bind]

/-- Claim C5 witness: concrete persistent-license option without storage. -/
theorem handleSessionStorage_persistent_requires_storage_witness :
    handleInitEncryptedEvent (some [1, 2]) ⟨⟨true, none⟩, 0⟩
      = Except.error ⟨"INVALID_KEY_SYSTEM", true⟩ :=
  (handleSessionStorage_persistent_requires_storage ⟨true, none⟩ 0 [1, 2]
    rfl rfl).1

/-- Claim C6 counterexample: a subsequent encrypted event whose configuration
(token 1) differs from the established one (token 0) under the
comparison fails with code `INVALID_ENCRYPTED_EVENT`, not with the
`INVALID_KEY_SYSTEM` code the claim names. -/
theorem ongoingEncrypted_config_mismatch_cex :
    ((fun a b => a == b) : Nat → Nat → Bool) 1 0 = false ∧
    handleOngoingPlaybackEncryptedEvents (fun a b => a == b) (some ()) 0
        (some [1]) ⟨⟨false, none⟩, 1⟩
      = Except.error ⟨"INVALID_ENCRYPTED_EVENT", true⟩ ∧
    (⟨"INVALID_ENCRYPTED_EVENT", true⟩ : EmeError)
      ≠ ⟨"INVALID_KEY_SYSTEM", true⟩ := by
  refine ⟨rfl, rfl, ?_⟩
  decide

/-- Claim C6 (amended): for every encrypted event after the first whose
obtained configuration differs (per the comparison function) from the
established one, and which passes the earlier media-keys / init-data /
license-storage checks, the driver fails with
`EncryptedMediaError("INVALID_ENCRYPTED_EVENT", fatal = true)`. -/
theorem ongoingEncrypted_config_mismatch_spec (cmp : Nat → Nat → Bool)
    (establishedConfiguration : Nat) (d : List Nat) (ks : KeySystemOption)
    (cfg : Nat) (hstore : handleSessionStorage ks = Except.ok ())
    (hcmp : cmp cfg establishedConfiguration = false) :
    handleOngoingPlaybackEncryptedEvents cmp (some ()) establishedConfiguration
        (some d) ⟨ks, cfg⟩
      = Except.error ⟨"INVALID_ENCRYPTED_EVENT", true⟩ := by
  simp [handleOngoingPlaybackEncryptedEvents, hstore, hcmp, Except.bind]

/-- Claim C6 witness: concrete mismatching configuration tokens. -/
theorem ongoingEncrypted_config_mismatch_spec_witness :
    handleOngoingPlaybackEncryptedEvents (fun a b => a == b) (some ()) 5
        (some [9]) ⟨⟨false, none⟩, 6⟩
      = Except.error ⟨"INVALID_ENCRYPTED_EVENT", true⟩ :=
  ongoingEncrypted_config_mismatch_spec (fun a b => a == b) 5 [9]
    ⟨false, none⟩ 6 rfl rfl

/-! ## EMEManager dispatch (eme/index.ts) -/

/-- Terminal status of the no-key-system branch of `EMEManager` over a
finite list of `encrypted` events: still running having emitted nothing,
or errored. -/
inductive StreamOutcome
  | running
  | errored (e : EmeError)
deriving DecidableEq

/-- Embeds the callback of `onEncrypted$(videoElement).map(...)` in the
no-key-system branch: every encrypted event is mapped to a thrown
`EncryptedMediaError("MEDIA_IS_ENCRYPTED_ERROR", null, true)`. -/
def encryptedToError (_initData : Option (List Nat)) : EmeError :=
  ⟨"MEDIA_IS_ENCRYPTED_ERROR", true⟩

/-- Embeds `onEncrypted$(videoElement).map(throw ...)`: the stream emits
no value; it errors at the first encrypted event with the mapped error,
and stays silent when no encrypted event ever fires. -/
def mapThrowEncrypted : List (Option (List Nat)) → StreamOutcome
  | [] => StreamOutcome.running
  | evt :: _ => StreamOutcome.errored (encryptedToError evt)

/-- Which branch `EMEManager` takes, and the no-key-system outcome. -/
inductive EMEBranch
  | createEMEBranch
  | noKeySystemBranch (outcome : StreamOutcome)
deriving DecidableEq

/-- Embeds the `EMEManager` dispatch (eme/index.ts): the JavaScript
truthiness test `keySystems && keySystems.length` routes a missing or
empty key-system list to the encrypted-to-error branch. -/
def EMEManager (keySystems : Option (List KeySystemOption))
    (encryptedEvents : List (Option (List Nat))) : EMEBranch :=
  match keySystems with
  | none => EMEBranch.noKeySystemBranch (mapThrowEncrypted encryptedEvents)
  | some l =>
    if l.isEmpty then EMEBranch.noKeySystemBranch (mapThrowEncrypted encryptedEvents)
    else EMEBranch.createEMEBranch

/-- Claim C10: with an empty or absent key-system list, `EMEManager` maps every
encrypted event to `EncryptedMediaError("MEDIA_IS_ENCRYPTED_ERROR",
fatal = true)` — the stream errors with it as soon as one event fires —
and emits nothing at all when no encrypted event ever fires. -/
theorem EMEManager_no_keysystems_spec (keySystems : Option (List KeySystemOption))
    (encryptedEvents : List (Option (List Nat)))
    (h : keySystems = none ∨ keySystems = some []) :
    EMEManager keySystems encryptedEvents
      = EMEBranch.noKeySystemBranch (mapThrowEncrypted encryptedEvents) ∧
    (∀ evt, encryptedToError evt = ⟨"MEDIA_IS_ENCRYPTED_ERROR", true⟩) ∧
    (encryptedEvents = [] → mapThrowEncrypted encryptedEvents = StreamOutcome.running) ∧
    (∀ evt rest, mapThrowEncrypted (evt :: rest)
      = StreamOutcome.errored ⟨"MEDIA_IS_ENCRYPTED_ERROR", true⟩) := by
  refine ⟨?_, fun evt => rfl, ?_, fun evt rest => rfl⟩
  · rcases h with h | h <;> simp [EMEManager, h]
  · intro h2
    simp [h2, mapThrowEncrypted]

/-- Claim C10 witness: empty key-system list with one encrypted event. -/
theorem EMEManager_no_keysystems_spec_witness :
    EMEManager (some []) [some [1]]
      = EMEBranch.noKeySystemBranch
          (StreamOutcome.errored ⟨"MEDIA_IS_ENCRYPTED_ERROR", true⟩) :=
  (EMEManager_no_keysystems_spec (some []) [some [1]] (Or.inr rfl)).1

/-! ## Overlay parser (parseMetaDASHOverlay) and overlay append (`_append`) -/

/-- A parsed overlay element: its time bounds and the created DOM element,
identified by a token. -/
structure HTMLOverlay where
  start : ℚ
  stop : ℚ
  element : Nat
deriving DecidableEq

/-- Raw overlay datum fed to the parser (`IMetaDashOverlayData`): start
and end times plus an identifying token standing for the element
description. -/
structure MetaDashOverlayData where
  start : ℚ
  stop : ℚ
  element : Nat
deriving DecidableEq

/-- Embeds `parseMetaDASHOverlay`: shifts every datum by `timeOffset` and
creates one element per datum. -/
def parseMetaDASHOverlay (data : List MetaDashOverlayData) (timeOffset : ℚ) :
    List HTMLOverlay :=
  data.map fun overlayData =>
    ⟨overlayData.start + timeOffset, overlayData.stop + timeOffset,
     overlayData.element⟩

/-- Segment data given to `OverlayTrackSourceBuffer._append`
(`IOverlayTrackSegmentData`): timescaled start, optional timescaled end,
the timescale, the raw overlay payload and the time offset. -/
structure OverlaySegmentData where
  timescale : ℚ
  start : ℚ
  stop : Option ℚ
  payload : List MetaDashOverlayData
  timeOffset : ℚ
deriving DecidableEq

/-- Observable state of the overlay source buffer touched by `_append`:
the timed-data buffer contents, the `buffered` ranges and a count of
emitted warnings. -/
structure OverlayBufferState where
  buffer : List (List HTMLOverlay × ℚ × ℚ)
  buffered : List (ℚ × ℚ)
  warnings : Nat
deriving DecidableEq

/-- Embeds `OverlayTrackSourceBuffer._append`.  The rejection guard is the
JavaScript test `timescaledEnd && timescaledEnd - timescaledStart <= 0`:
it fires only when the end is present AND truthy (nonzero).  On the
append path, `buffer.insert(formattedData, start, end)` and
`buffered.insert(start, end)` are modelled as recording the inserted
block and range; `none` models the JavaScript crash of reading
`overlays[overlays.length - 1].end` on an empty parse result. -/
def overlayAppend (s : OverlayBufferState) (data : OverlaySegmentData) :
    Option OverlayBufferState :=
  let reject : Bool :=
    match data.stop with
    | some e => !(e == 0) && decide (e - data.start ≤ 0)
    | none => false
  if reject then
    some { s with warnings := s.warnings + 1 }
  else
    let startTime := data.start / data.timescale
    let endTime : Option ℚ := data.stop.map (fun e => e / data.timescale)
    let overlays := parseMetaDASHOverlay data.payload data.timeOffset
    let insertAt : ℚ → OverlayBufferState := fun stopTime =>
      { s with
        buffer := s.buffer ++ [(overlays, startTime, stopTime)]
        buffered := s.buffered ++ [(startTime, stopTime)] }
    match endTime with
    | some e => some (insertAt e)
    | none =>
      match overlays.getLast? with
      | some last => some (insertAt last.stop)
      | none => none

/-- Claim C7 counterexample: a segment with timescaled end `0` and start `5`
has `end ≤ start`, yet the guard's truthiness test lets it through: no
warning is emitted and the segment is inserted, changing the buffered
ranges. -/
theorem overlayAppend_zero_end_cex :
    ((0 : ℚ) ≤ 5) ∧
    overlayAppend ⟨[], [], 0⟩ ⟨1, 5, some 0, [], 0⟩
      = some ⟨[([], 5, 0)], [(5, 0)], 0⟩ := by
  constructor
  · norm_num
  · norm_num [overlayAppend, parseMetaDASHOverlay]

/-- Claim C7 (amended): a segment whose timescaled end bound is present,
nonzero, and at most its start bound is rejected: a warning is emitted
and neither the buffer contents nor the buffered ranges change.  (An end
bound equal to `0` escapes this guard, as the counterexample shows.) -/
theorem overlayAppend_rejects_nonpositive_spec (s : OverlayBufferState)
    (data : OverlaySegmentData) (e : ℚ) (hstop : data.stop = some e)
    (hnz : e ≠ 0) (hle : e - data.start ≤ 0) :
    overlayAppend s data = some { s with warnings := s.warnings + 1 } := by
  have hnzb : (e == 0) = false := by
    simp [hnz]
  simp [overlayAppend, hstop, hnzb, hle]

/-- Claim C7 witness: a concrete inverted segment is rejected with a warning
and unchanged buffer state. -/
theorem overlayAppend_rejects_nonpositive_spec_witness :
    overlayAppend ⟨[], [], 0⟩ ⟨1, 5, some 2, [], 0⟩ = some ⟨[], [], 1⟩ :=
  overlayAppend_rejects_nonpositive_spec ⟨[], [], 0⟩ ⟨1, 5, some 2, [], 0⟩ 2
    rfl (by norm_num) (by norm_num)

/-! ## Overlay display clock (`OverlayTrackSourceBuffer` constructor, `_abort`) -/

/-- A buffered overlay entry of the `TimedDataBufferManager`. -/
structure OverlayEntry where
  start : ℚ
  stop : ℚ
  data : Nat
deriving DecidableEq

/-- Modelled from the spec: `TimedDataBufferManager.get(time)`
(`utils/buffer_manager` is not part of the provided sources) returns the
buffered element whose range `[start, end)` contains the given time. -/
def bufGet (buffer : List OverlayEntry) (t : ℚ) : Option OverlayEntry :=
  buffer.find? fun entry => decide (entry.start ≤ t) && decide (t < entry.stop)

/-- Observable display state of the overlay sink: the managed children of
the host `overlayTrackElement`, the `_currentElement` pointer, and the
timed-data buffer. -/
structure OverlayDisplayState where
  children : List Nat
  current : Option Nat
  buffer : List OverlayEntry
deriving DecidableEq

/-- Embeds `safelyRemoveChild`: removing a null child is a no-op, and a
child not in the element is tolerated (`List.erase` is a no-op then). -/
def safelyRemoveChild (children : List Nat) (child : Option Nat) : List Nat :=
  match child with
  | none => children
  | some c => children.erase c

/-- Embeds the clock-subscription body of the `OverlayTrackSourceBuffer`
constructor for one clock emission: when `shouldDisplay` is false the
current element is removed; otherwise the element at
`max(currentTime - MAXIMUM_OVERLAY_TRACK_UPDATE_INTERVAL / 3000, 0)` is
looked up; no match removes the current element; a match equal to the
current element changes nothing; otherwise the previous element is
removed before the new one is appended. -/
def onOverlayClockTick (interval : ℚ) (shouldDisplay : Bool) (currentTime : ℚ)
    (s : OverlayDisplayState) : OverlayDisplayState :=
  if !shouldDisplay then
    { s with children := safelyRemoveChild s.children s.current, current := none }
  else
    let time := max (currentTime - interval / 3000) 0
    match bufGet s.buffer time with
    | none =>
      { s with children := safelyRemoveChild s.children s.current, current := none }
    | some overlay =>
      if s.current = some overlay.data then s
      else
        { s with
          children := safelyRemoveChild s.children s.current ++ [overlay.data]
          current := some overlay.data }

/-- Embeds `OverlayTrackSourceBuffer._abort`: the subscription is ended
and the currently attached element is removed from the host element. -/
def overlayAbort (s : OverlayDisplayState) : OverlayDisplayState :=
  { s with children := safelyRemoveChild s.children s.current }

/-- Claim C9: on a display clock tick, the attached element becomes the
buffered element containing `max(currentTime - interval / 3000, 0)`; an
equal element is a strict no-op; starting from at most one attached
element, at most one element stays attached (the previous one being
removed before the new one is appended); with no matching element the
current one is removed; and `_abort` removes the attached element. -/
theorem overlayClockTick_spec (interval currentTime : ℚ) (s : OverlayDisplayState) :
    ((onOverlayClockTick interval true currentTime s).current
      = (bufGet s.buffer (max (currentTime - interval / 3000) 0)).map
          (fun overlay => overlay.data)) ∧
    (∀ overlay, bufGet s.buffer (max (currentTime - interval / 3000) 0) = some overlay →
      s.current = some overlay.data →
      onOverlayClockTick interval true currentTime s = s) ∧
    (s.children = s.current.toList →
      (onOverlayClockTick interval true currentTime s).children
        = (onOverlayClockTick interval true currentTime s).current.toList) ∧
    (bufGet s.buffer (max (currentTime - interval / 3000) 0) = none →
      (onOverlayClockTick interval true currentTime s).current = none ∧
      (onOverlayClockTick interval true currentTime s).children
        = safelyRemoveChild s.children s.current) ∧
    (s.children = s.current.toList → (overlayAbort s).children = []) := by
  have herase : ∀ o : Option Nat, safelyRemoveChild o.toList o = [] := by
    intro o
    cases o <;> simp [safelyRemoveChild]
  refine ⟨?_, ?_, ?_, ?_, ?_⟩
  · cases hb : bufGet s.buffer (max (currentTime - interval / 3000) 0) with
    | none => simp [onOverlayClockTick, hb]
    | some overlay =>
      by_cases hc : s.current = some overlay.data <;>
        simp [onOverlayClockTick, hb, hc]
  · intro overlay hb hc
    simp [onOverlayClockTick, hb, hc]
  · intro hinv
    cases hb : bufGet s.buffer (max (currentTime - interval / 3000) 0) with
    | none => simp [onOverlayClockTick, hb, hinv, herase]
    | some overlay =>
      by_cases hc : s.current = some overlay.data
      · simp [onOverlayClockTick, hb, hc, hinv]
      · simp [onOverlayClockTick, hb, hc, hinv, herase]
  · intro hb
    simp [onOverlayClockTick, hb]
  · intro hinv
    simp [overlayAbort, hinv, herase]

/-- Claim C9 witness: one buffered overlay `[0, 10) ↦ element 7`, an empty host
region, a tick at `currentTime = 2` with the default 4000 ms interval:
element 7 is attached, alone. -/
theorem overlayClockTick_spec_witness :
    ((⟨[], none, [⟨0, 10, 7⟩]⟩ : OverlayDisplayState).children
       = (⟨[], none, [⟨0, 10, 7⟩]⟩ : OverlayDisplayState).current.toList) ∧
    (onOverlayClockTick 4000 true 2 ⟨[], none, [⟨0, 10, 7⟩]⟩).children
      = (onOverlayClockTick 4000 true 2 ⟨[], none, [⟨0, 10, 7⟩]⟩).current.toList :=
  ⟨rfl, (overlayClockTick_spec 4000 2 ⟨[], none, [⟨0, 10, 7⟩]⟩).2.2.1 rfl⟩

/-! ## Media element reset (`resetMediaElement`, media_source.ts) -/

/-- The `readyState` of a `MediaSource`. -/
inductive MSReadyState
  | closed
  | opened
  | ended
deriving DecidableEq

/-- The full observable state touched by `resetMediaElement`.  Source
buffer objects live in identity pools (`nativePool`, `customPool`) keyed
by index so that "aborted" remains observable after the memory entries
referencing them are deleted; `true` means aborted. -/
structure MediaElementState where
  nativePool : List Bool
  customPool : List Bool
  msReadyState : Option MSReadyState
  msSourceBuffers : List Nat
  nativeMemory : List String
  customMemory : List (String × Nat)
  videoSrc : Option String
  objectURL : Option String
  revoked : List String
deriving DecidableEq

/-- Marks every source buffer listed in `ids` as aborted. -/
def abortIds (pool : List Bool) (ids : List Nat) : List Bool :=
  ids.foldl (fun acc i => acc.set i true) pool

/-- Embeds `resetMediaElement` (media_source.ts): when a media source is
attached and not closed, each of its source buffers is aborted — but
only when the `readyState` is `"open"` — and removed; the
`sourceBufferMemory.native` entries are deleted; every custom source
buffer in memory is aborted and its entry deleted; the element's `src`
is cleared; the previously attached object URL, when any, is revoked;
finally the local media source and URL references are nulled. -/
def resetMediaElement (s : MediaElementState) : MediaElementState :=
  { nativePool :=
      if s.msReadyState = some MSReadyState.opened then
        abortIds s.nativePool s.msSourceBuffers
      else s.nativePool
    customPool := abortIds s.customPool (s.customMemory.map Prod.snd)
    msReadyState := none
    msSourceBuffers := []
    nativeMemory := []
    customMemory := []
    videoSrc := none
    objectURL := none
    revoked :=
      match s.objectURL with
      | some u => u :: s.revoked
      | none => s.revoked }

/-- Entries not listed in `ids` keep their value through `abortIds`. -/
theorem abortIds_get_not_mem (ids : List Nat) (pool : List Bool) (i : Nat)
    (h : i ∉ ids) : (abortIds pool ids)[i]? = pool[i]? := by
  induction ids generalizing pool with
  | nil => rfl
  | cons a tl ih =>
    have h1 : i ≠ a := fun e => h (e ▸ List.mem_cons_self a tl)
    have h2 : i ∉ tl := fun m => h (List.mem_cons_of_mem a m)
    have hstep : abortIds pool (a :: tl) = abortIds (pool.set a true) tl := rfl
    rw [hstep, ih _ h2, List.getElem?_set_ne (Ne.symm h1)]

/-- After `abortIds`, every listed (in-range) buffer is aborted. -/
theorem abortIds_marks (ids : List Nat) (pool : List Bool) (i : Nat)
    (hmem : i ∈ ids) (hlen : i < pool.length) :
    (abortIds pool ids)[i]? = some true := by
  induction ids generalizing pool with
  | nil => cases hmem
  | cons a tl ih =>
    have hstep : abortIds pool (a :: tl) = abortIds (pool.set a true) tl := rfl
    rw [hstep]
    by_cases htl : i ∈ tl
    · exact ih _ htl (by simpa using hlen)
    · have hia : i = a := (List.mem_cons.mp hmem).resolve_right htl
      subst hia
      rw [abortIds_get_not_mem tl _ i htl, List.getElem?_set_self']
      simp [List.getElem?_eq_getElem hlen]

/-- Claim C4 counterexample: at teardown with the media source in the
`"ended"` ready state, the (sole) native source buffer is not aborted:
its aborted flag stays `false` after `resetMediaElement`. -/
theorem resetMediaElement_ended_not_aborted_cex :
    (resetMediaElement
        ⟨[false], [], some MSReadyState.ended, [0], ["audio"], [],
         some "blob:a", some "blob:a", []⟩).nativePool = [false] := by
  rfl

/-- Claim C4 (amended): `resetMediaElement` always leaves the element `src`
cleared, the object URL nulled and (when one was attached) revoked, the
native and custom memories emptied, and every custom source buffer
aborted; native source buffers are all aborted when the media source's
ready state is `"open"` (in the `"ended"` state they are removed but not
aborted, and in the `"closed"` state the media source is not touched). -/
theorem resetMediaElement_teardown_spec (s : MediaElementState) :
    ((resetMediaElement s).videoSrc = none) ∧
    ((resetMediaElement s).objectURL = none) ∧
    ((resetMediaElement s).msReadyState = none) ∧
    ((resetMediaElement s).msSourceBuffers = []) ∧
    (∀ u, s.objectURL = some u → u ∈ (resetMediaElement s).revoked) ∧
    ((resetMediaElement s).nativeMemory = []) ∧
    ((resetMediaElement s).customMemory = []) ∧
    (∀ i, i ∈ s.customMemory.map Prod.snd → i < s.customPool.length →
      ((resetMediaElement s).customPool)[i]? = some true) ∧
    (s.msReadyState = some MSReadyState.opened →
      ∀ i, i ∈ s.msSourceBuffers → i < s.nativePool.length →
        ((resetMediaElement s).nativePool)[i]? = some true) := by
  refine ⟨rfl, rfl, rfl, rfl, ?_, rfl, rfl, ?_, ?_⟩
  · intro u hu
    simp [resetMediaElement, hu]
  · intro i hmem hlen
    exact abortIds_marks _ _ _ hmem hlen
  · intro hrs i hmem hlen
    have : (resetMediaElement s).nativePool = abortIds s.nativePool s.msSourceBuffers := by
      simp [resetMediaElement, hrs]
    rw [this]
    exact abortIds_marks _ _ _ hmem hlen

/-- Claim C4 witness: a concrete open media source with one native buffer, one
custom buffer and an attached URL is fully torn down. -/
theorem resetMediaElement_teardown_spec_witness :
    (((resetMediaElement
        ⟨[false], [false], some MSReadyState.opened, [0], ["audio"],
         [("text", 0)], some "blob:b", some "blob:b", []⟩).nativePool)[0]?
      = some true) ∧
    (((resetMediaElement
        ⟨[false], [false], some MSReadyState.opened, [0], ["audio"],
         [("text", 0)], some "blob:b", some "blob:b", []⟩).customPool)[0]?
      = some true) ∧
    ("blob:b" ∈ (resetMediaElement
        ⟨[false], [false], some MSReadyState.opened, [0], ["audio"],
         [("text", 0)], some "blob:b", some "blob:b", []⟩).revoked) :=
  ⟨(resetMediaElement_teardown_spec _).2.2.2.2.2.2.2.2 rfl 0 (by decide)
      (by decide),
   (resetMediaElement_teardown_spec _).2.2.2.2.2.2.2.1 0 (by decide) (by decide),
   (resetMediaElement_teardown_spec _).2.2.2.2.1 "blob:b" rfl⟩

/-! ## Period buffer switching (`createPeriodBuffer`, stream/index.ts) -/

/-- The type tag of an event emitted by one period's buffer
(`periodBuffer$`). -/
inductive BufferEvtType
  | filled
  | finished
  | queued
  | otherEvt
deriving DecidableEq

/-- One event of `periodBuffer$`: its type tag and, for `filled` /
`finished` events, the `value.wantedRange.end` it carries (carried by all
events here; only read on `filled` / `finished`). -/
structure BufferEvt where
  evtType : BufferEvtType
  wantedRangeEnd : ℚ
deriving DecidableEq

/-- Tags each event of a stream with its emission index, so that merging
two streams filtered from the same source can compare positions. -/
def withIdx : Nat → List BufferEvt → List (Nat × BufferEvt)
  | _, [] => []
  | n, e :: rest => (n, e) :: withIdx (n + 1) rest

/-- Embeds `.distinctUntilChanged((a, b) => a.type === b.type)`: an event
is dropped when its type equals the previous event's type. -/
def distinctUntilChangedByType :
    Option BufferEvtType → List (Nat × BufferEvt) → List (Nat × BufferEvt)
  | _, [] => []
  | prev, e :: rest =>
    if prev = some e.2.evtType then
      distinctUntilChangedByType (some e.2.evtType) rest
    else
      e :: distinctUntilChangedByType (some e.2.evtType) rest

/-- Embeds `bufferEnded$`: the period buffer's events, de-duplicated by
type, filtered to the `filled` events. -/
def bufferEnded (evts : List BufferEvt) : List (Nat × BufferEvt) :=
  (distinctUntilChangedByType none (withIdx 0 evts)).filter
    fun p => p.2.evtType == BufferEvtType.filled

/-- Embeds `bufferFinished$`: the period buffer's events filtered to the
`finished` events. -/
def bufferFinished (evts : List BufferEvt) : List (Nat × BufferEvt) :=
  (withIdx 0 evts).filter fun p => p.2.evtType == BufferEvtType.finished

/-- Embeds `Observable.merge(bufferEnded$, bufferFinished$).take(1)`:
both inputs being filtered views of the same source stream, the first
merged element is whichever head was emitted first. -/
def mergeTakeOne (a b : Option (Nat × BufferEvt)) : Option (Nat × BufferEvt) :=
  match a, b with
  | none, none => none
  | some x, none => some x
  | none, some y => some y
  | some x, some y => if x.1 ≤ y.1 then some x else some y

/-- The event that triggers `switchNextBuffer$` for a period's buffer,
when any: the first emission of
`Observable.merge(bufferEnded$, bufferFinished$).take(1)`. -/
def switchTrigger (evts : List BufferEvt) : Option BufferEvt :=
  (mergeTakeOne (bufferEnded evts).head? (bufferFinished evts).head?).map Prod.snd

/-- A manifest period: identifier, start time and optional duration. -/
structure Period where
  pid : Nat
  start : ℚ
  duration : Option ℚ
deriving DecidableEq

/-- A manifest, reduced to its ordered period list. -/
structure Manifest where
  periods : List Period
deriving DecidableEq

/-- Modelled from the spec: `manifest.getPeriodForTime(t)` (§6, the
Manifest object is an external collaborator not under the provided
sources) returns the period containing time `t`: `start ≤ t`, and
`t < start + duration` when the period has a duration. -/
def Manifest.getPeriodForTime (m : Manifest) (t : ℚ) : Option Period :=
  m.periods.find? fun p =>
    decide (p.start ≤ t) &&
      (match p.duration with
       | none => true
       | some d => decide (t < p.start + d))

/-- Embeds the `switchMap` body of `switchNextBuffer$`
(`createPeriodBuffer`, stream/index.ts): on the triggering `filled` /
`finished` event, the period at `value.wantedRange.end + 2` is looked
up; `none` models `Observable.empty()` (no further buffer spawned for
the track), `some p` the recursive `createPeriodBuffer` call for `p`. -/
def switchNextBuffer (m : Manifest) (evts : List BufferEvt) : Option Period :=
  match switchTrigger evts with
  | none => none
  | some e => m.getPeriodForTime (e.wantedRangeEnd + 2)

/-- Indexed events are events of the underlying stream. -/
theorem mem_of_mem_withIdx (l : List BufferEvt) (n : Nat) (p : Nat × BufferEvt)
    (h : p ∈ withIdx n l) : p.2 ∈ l := by
  induction l generalizing n with
  | nil => cases h
  | cons e rest ih =>
    rcases List.mem_cons.mp h with h | h
    · subst h
      exact List.mem_cons_self e rest
    · exact List.mem_cons_of_mem e (ih (n + 1) h)

/-- `distinctUntilChangedByType` only drops events. -/
theorem mem_of_mem_distinct (l : List (Nat × BufferEvt))
    (prev : Option BufferEvtType) (p : Nat × BufferEvt)
    (h : p ∈ distinctUntilChangedByType prev l) : p ∈ l := by
  induction l generalizing prev with
  | nil => cases h
  | cons e rest ih =>
    by_cases hp : prev = some e.2.evtType
    · have : p ∈ distinctUntilChangedByType (some e.2.evtType) rest := by
        simpa [distinctUntilChangedByType, hp] using h
      exact List.mem_cons_of_mem e (ih _ this)
    · rcases List.mem_cons.mp
        (by simpa [distinctUntilChangedByType, hp] using h) with h2 | h2
      · rw [h2]
        exact List.mem_cons_self e rest
      · exact List.mem_cons_of_mem e (ih _ h2)

/-- The head of a list is a member. -/
theorem mem_of_head?_eq {α : Type} {l : List α} {a : α}
    (h : l.head? = some a) : a ∈ l := by
  cases l with
  | nil => cases h
  | cons x xs =>
    have : x = a := by simpa using h
    exact this ▸ List.mem_cons_self x xs

/-- A switch trigger is a `filled` or `finished` event of the period
buffer's stream. -/
theorem switchTrigger_mem (evts : List BufferEvt) (e : BufferEvt)
    (h : switchTrigger evts = some e) :
    e ∈ evts ∧
      (e.evtType = BufferEvtType.filled ∨ e.evtType = BufferEvtType.finished) := by
  have hsrc : ∃ p : Nat × BufferEvt,
      p.2 = e ∧ (p ∈ bufferEnded evts ∨ p ∈ bufferFinished evts) := by
    unfold switchTrigger at h
    cases ha : (bufferEnded evts).head? with
    | none =>
      cases hb : (bufferFinished evts).head? with
      | none => rw [ha, hb] at h; cases h
      | some y =>
        rw [ha, hb] at h
        have : y.2 = e := by simpa [mergeTakeOne] using h
        exact ⟨y, this, Or.inr (mem_of_head?_eq hb)⟩
    | some x =>
      cases hb : (bufferFinished evts).head? with
      | none =>
        rw [ha, hb] at h
        have : x.2 = e := by simpa [mergeTakeOne] using h
        exact ⟨x, this, Or.inl (mem_of_head?_eq ha)⟩
      | some y =>
        rw [ha, hb] at h
        by_cases hle : x.1 ≤ y.1
        · have : x.2 = e := by simpa [mergeTakeOne, hle] using h
          exact ⟨x, this, Or.inl (mem_of_head?_eq ha)⟩
        · have : y.2 = e := by simpa [mergeTakeOne, hle] using h
          exact ⟨y, this, Or.inr (mem_of_head?_eq hb)⟩
  rcases hsrc with ⟨p, hpe, hp | hp⟩
  · have hmem := List.mem_filter.mp hp
    have htype : p.2.evtType = BufferEvtType.filled := by
      have := hmem.2
      simpa using this
    have : p.2 ∈ evts :=
      mem_of_mem_withIdx evts 0 p (mem_of_mem_distinct _ _ _ hmem.1)
    exact ⟨hpe ▸ this, Or.inl (hpe ▸ htype)⟩
  · have hmem := List.mem_filter.mp hp
    have htype : p.2.evtType = BufferEvtType.finished := by
      have := hmem.2
      simpa using this
    have : p.2 ∈ evts := mem_of_mem_withIdx evts 0 p hmem.1
    exact ⟨hpe ▸ this, Or.inr (hpe ▸ htype)⟩

/-- A stream with no `filled` or `finished` event has no switch trigger. -/
theorem switchTrigger_eq_none (evts : List BufferEvt)
    (h : ∀ e ∈ evts,
      e.evtType ≠ BufferEvtType.filled ∧ e.evtType ≠ BufferEvtType.finished) :
    switchTrigger evts = none := by
  have hended : bufferEnded evts = [] := by
    refine List.filter_eq_nil_iff.mpr ?_
    intro p hp
    have : p.2 ∈ evts :=
      mem_of_mem_withIdx evts 0 p (mem_of_mem_distinct _ _ _ hp)
    simpa using (h p.2 this).1
  have hfin : bufferFinished evts = [] := by
    refine List.filter_eq_nil_iff.mpr ?_
    intro p hp
    have : p.2 ∈ evts := mem_of_mem_withIdx evts 0 p hp
    simpa using (h p.2 this).2
  simp [switchTrigger, hended, hfin, mergeTakeOne]

/-- Claim C1: for any track's period-N buffer, a period-N+1 buffer is spawned
only on the first `filled` or `finished` event the buffer emits, and the
period of the new buffer is the one the manifest returns for
`wantedRange.end + 2` seconds; a stream with no such event spawns
nothing, and when no period contains that time nothing further is
spawned for the track. -/
theorem switchNextBuffer_spawn_spec (m : Manifest) (evts : List BufferEvt) :
    (∀ p, switchNextBuffer m evts = some p →
      ∃ e, switchTrigger evts = some e ∧ e ∈ evts ∧
        (e.evtType = BufferEvtType.filled ∨ e.evtType = BufferEvtType.finished) ∧
        m.getPeriodForTime (e.wantedRangeEnd + 2) = some p) ∧
    ((∀ e ∈ evts,
        e.evtType ≠ BufferEvtType.filled ∧ e.evtType ≠ BufferEvtType.finished) →
      switchNextBuffer m evts = none) ∧
    (∀ e, switchTrigger evts = some e →
      m.getPeriodForTime (e.wantedRangeEnd + 2) = none →
      switchNextBuffer m evts = none) := by
  refine ⟨?_, ?_, ?_⟩
  · intro p hp
    cases ht : switchTrigger evts with
    | none => simp [switchNextBuffer, ht] at hp
    | some e =>
      simp only [switchNextBuffer, ht] at hp
      rcases switchTrigger_mem evts e ht with ⟨hmem, htype⟩
      exact ⟨e, rfl, hmem, htype, hp⟩
  · intro h
    simp [switchNextBuffer, switchTrigger_eq_none evts h]
  · intro e ht hnone
    simp [switchNextBuffer, ht, hnone]

/-- Claim C1 witness: a two-period manifest; the buffer stream emits a
`queued` event and then `filled` with `wantedRange.end = 29`; lookup at
`31` spawns the buffer for period 1. -/
theorem switchNextBuffer_spawn_spec_witness :
    ∃ e, switchTrigger [⟨BufferEvtType.queued, 5⟩, ⟨BufferEvtType.filled, 29⟩]
        = some e ∧
      e ∈ [⟨BufferEvtType.queued, 5⟩, ⟨BufferEvtType.filled, 29⟩] ∧
      (e.evtType = BufferEvtType.filled ∨ e.evtType = BufferEvtType.finished) ∧
      Manifest.getPeriodForTime ⟨[⟨0, 0, some 30⟩, ⟨1, 30, some 30⟩]⟩
          (e.wantedRangeEnd + 2) = some ⟨1, 30, some 30⟩ :=
  (switchNextBuffer_spawn_spec ⟨[⟨0, 0, some 30⟩, ⟨1, 30, some 30⟩]⟩
      [⟨BufferEvtType.queued, 5⟩, ⟨BufferEvtType.filled, 29⟩]).1
    ⟨1, 30, some 30⟩ (by
      have ht : switchTrigger [⟨BufferEvtType.queued, 5⟩, ⟨BufferEvtType.filled, 29⟩]
          = some ⟨BufferEvtType.filled, 29⟩ := rfl
      simp only [switchNextBuffer, ht]
      norm_num [Manifest.getPeriodForTime, List.find?])

end RxPlayer
